import Mathlib

/-!
Shallow embedding of the guillotina request-to-transaction core
(`guillotina/db/transaction_manager.py`, `guillotina/db/cache/base.py`,
`guillotina/traversal.py`, `guillotina/component/globalregistry.py`)
together with proofs about the claimed properties of that code.

Python is modelled functionally: each `async` method becomes a pure
function from an explicit environment (the outcomes of the awaited
collaborator calls, which live outside the verified slice) and the
mutable state it touches, to the new state paired with the exception it
raises (`none` = normal return).  Exceptions are a closed inductive of
the classes the embedded code dispatches on.
-/

namespace Guillotina

/-- The Python exception classes the embedded code dispatches on.
`interfaceError` carries `str(ex)` because the code matches substrings
of the message. -/
inductive PyExc where
  | attrError
  | interfaceError (msg : String)
  | internalClientError
  | conflictError
  | tidConflictError
  | cancelledError
  | valueError
  | otherError (code : Nat)
deriving DecidableEq, Repr

/-- Whether the exception is caught by a Python `except Exception:` clause.
`asyncio.CancelledError` derives from `BaseException` (not `Exception`),
so it is the one class such a clause lets through. -/
def PyExc.isException : PyExc → Bool
  | .cancelledError => false
  | _ => true

/-- Python's substring test `pat in s` over the character sequences. -/
def pyInStr (pat s : String) : Bool :=
  (List.range (s.data.length + 1)).any fun i => pat.data.isPrefixOf (s.data.drop i)

/-- Exception propagation through a Python `try/finally`: an exception
raised by the `finally` block replaces the in-flight one, otherwise the
in-flight exception (if any) propagates. -/
def pyFinally (orig fin : Option PyExc) : Option PyExc :=
  match fin with
  | some f => some f
  | none => orig

/-- `guillotina.db.transaction.Status` (the four members the manager
code reads and writes). -/
inductive Status where
  | ACTIVE
  | COMMITTED
  | ABORTED
  | CONFLICT
deriving DecidableEq, Repr

/-- An asyncpg pool connection as seen by the manager code: `_con` is
the raw connection attribute inspected by the failsafe branch (`none`
models an already-released holder), `inUse` models the `_in_use`
attribute read through `getattr(conn, "_in_use", None)` (`none` when
the attribute is absent or `None`). -/
structure Conn where
  con : Option Unit
  inUse : Option Unit
deriving DecidableEq, Repr

/-- The slice of a `Transaction` instance the manager code touches.
`tid` is the object identity (reuse keeps it, fresh construction gets a
new one). -/
structure Txn where
  tid : Nat
  managerId : Nat
  storageId : Nat
  status : Status
  readOnly : Bool
  dbConn : Option Conn
  dbTxn : Option Unit
  user : Option String
  queryCountEnd : Option Nat
deriving DecidableEq, Repr

/-- Outcomes of the awaited collaborator calls inside
`TransactionManager._close_txn`: `txn.get_query_count()` (its caller
anticipates only `AttributeError`), `self._storage.close(conn)` and
`self._storage.terminate(conn)` (`none` = the call returned normally). -/
structure CloseEnv where
  queryCountAttrError : Bool
  queryCount : Nat
  closeResult : Option PyExc
  terminateResult : Option PyExc
deriving DecidableEq, Repr

/-- `TransactionManager._close_txn` (transaction_manager.py lines
132-172).  Returns the transaction as left by the call and the
exception it raises (`none` = normal return).  The `finally` block at
the end of the source unconditionally assigns `txn._db_conn = None`;
`txn._db_conn` is not reassigned anywhere before it, so the guards that
re-read it mid-flight see the entry value. -/
def close_txn (env : CloseEnv) (txn : Txn) : Txn × Option PyExc :=
  match txn.dbConn with
  | none => (txn, none)
  | some conn =>
    -- try: txn._query_count_end = txn.get_query_count() / except AttributeError: pass
    let txn1 := if env.queryCountAttrError then txn
                else { txn with queryCountEnd := some env.queryCount }
    -- exception escaping the inner try (storage.close plus its two except clauses)
    let innerExc : Option PyExc :=
      match env.closeResult with
      | none => none
      | some (PyExc.interfaceError msg) =>
          if pyInStr "received invalid connection" msg then none
          else some (PyExc.interfaceError msg)
      | some PyExc.internalClientError =>
          -- except InternalClientError: if txn._db_conn is not None: raise
          some PyExc.internalClientError
      | some e => some e
    -- finally: txn._db_conn = None  (runs on every path below)
    let txn2 := { txn1 with dbConn := none }
    match innerExc with
    | none => (txn2, none)
    | some e =>
      if e.isException then
        -- except Exception: failsafe terminate
        -- (txn._db_conn is still the entry connection, so the first raise-guard is not taken)
        match conn.con with
        | none => (txn2, some e)  -- if txn._db_conn._con is None: raise
        | some _ =>
          match env.terminateResult with
          | none => (txn2, none)  -- handler completed: exception consumed
          | some (PyExc.interfaceError msg) =>
              if pyInStr "released back to the pool" msg then (txn2, none)
              else (txn2, some (PyExc.interfaceError msg))
          | some e2 => (txn2, some e2)
      else
        -- CancelledError is not an Exception: it skips the failsafe branch
        (txn2, some e)

/-- Modelled from the spec: `Transaction.commit`
(guillotina/db/transaction.py, not under src/): "flushes
modified/added/deleted object set to storage; on optimistic-concurrency
conflict, raises a conflict signal and transitions to CONFLICT without
partial writes; on success, transitions to COMMITTED".  The outcome of
the flush is supplied by the environment. -/
def txn_commit (res : Option PyExc) (txn : Txn) : Txn × Option PyExc :=
  match res with
  | none => ({ txn with status := Status.COMMITTED }, none)
  | some PyExc.conflictError => ({ txn with status := Status.CONFLICT }, some PyExc.conflictError)
  | some PyExc.tidConflictError => ({ txn with status := Status.CONFLICT }, some PyExc.tidConflictError)
  | some e => (txn, some e)

/-- Modelled from the spec: `Transaction.abort`
(guillotina/db/transaction.py, not under src/): "discards the object
register without touching storage; transitions to ABORTED".  The
environment supplies the outcome (an abort may still raise, e.g. a
cancellation arriving at its await points). -/
def txn_abort (res : Option PyExc) (txn : Txn) : Txn × Option PyExc :=
  match res with
  | none => ({ txn with status := Status.ABORTED }, none)
  | some e => (txn, some e)

/-- Outcomes of the collaborator calls awaited during
`TransactionManager._commit` / `_abort`: the `txn.commit()` /
`txn.abort()` flush outcome plus the `_close_txn` environment. -/
structure FinishEnv where
  result : Option PyExc
  close : CloseEnv
deriving DecidableEq, Repr

/-- `TransactionManager._commit` (transaction_manager.py lines 114-130)
for a supplied (non-None) transaction: `try: await txn.commit()` with
`except (ConflictError, TIDConflictError): txn.status = CONFLICT; raise`
and `finally: await self._close_txn(txn)`. -/
def tm_commit_inner (env : FinishEnv) (txn : Txn) : Txn × Option PyExc :=
  let r := txn_commit env.result txn
  match r.snd with
  | some PyExc.conflictError =>
      let txn2 := { r.fst with status := Status.CONFLICT }
      let c := close_txn env.close txn2
      (c.fst, pyFinally (some PyExc.conflictError) c.snd)
  | some PyExc.tidConflictError =>
      let txn2 := { r.fst with status := Status.CONFLICT }
      let c := close_txn env.close txn2
      (c.fst, pyFinally (some PyExc.tidConflictError) c.snd)
  | e =>
      let c := close_txn env.close r.fst
      (c.fst, pyFinally e c.snd)

/-- `TransactionManager.commit` (lines 108-112): `await
shield(copy_context(self._commit(txn=txn)))` inside a `try/finally`
whose `finally` only logs.  In the sequential model `shield` is
transparent (an external cancellation is represented as the inner
coroutine raising `cancelledError`), so the wrapper propagates the
inner outcome unchanged — in particular it does not swallow
cancellation. -/
def tm_commit (env : FinishEnv) (txn : Txn) : Txn × Option PyExc :=
  tm_commit_inner env txn

/-- `TransactionManager._abort` (lines 182-192) for a supplied
transaction: `try: await txn.abort()` / `finally: await
self._close_txn(txn)`. -/
def tm_abort_inner (env : FinishEnv) (txn : Txn) : Txn × Option PyExc :=
  let r := txn_abort env.result txn
  let c := close_txn env.close r.fst
  (c.fst, pyFinally r.snd c.snd)

/-- `TransactionManager.abort` (lines 174-180): like `commit` but with
`except asyncio.CancelledError: pass` around the shielded `_abort`. -/
def tm_abort (env : FinishEnv) (txn : Txn) : Txn × Option PyExc :=
  let r := tm_abort_inner env txn
  match r.snd with
  | some PyExc.cancelledError => (r.fst, none)
  | e => (r.fst, e)

/-- The slice of a `TransactionManager` instance that `begin` reads:
its identity (Python `==` on these classes is identity) and the
identity of `self._storage`. -/
structure Manager where
  mid : Nat
  storageId : Nat
deriving DecidableEq, Repr

/-- Modelled from the spec: `Transaction.initialize(read_only)`
(guillotina/db/transaction.py, not under src/): "reuse re-initializes
the status to ACTIVE rather than allocating a new instance" — in-place
re-initialization that keeps the object's identity (and its connection
slot, which `begin` inspects right afterwards). -/
def txn_reinit (readOnly : Bool) (txn : Txn) : Txn :=
  { txn with status := Status.ACTIVE, readOnly := readOnly }

/-- Modelled from the spec: `Transaction(manager, read_only=...)`
construction (not under src/): a fresh ACTIVE transaction bound to this
manager and its storage, with no connection yet. -/
def txn_new (self : Manager) (freshId : Nat) (readOnly : Bool) : Txn :=
  { tid := freshId
    managerId := self.mid
    storageId := self.storageId
    status := Status.ACTIVE
    readOnly := readOnly
    dbConn := none
    dbTxn := none
    user := none
    queryCountEnd := none }

/-- The reuse test of `TransactionManager.begin` (lines 73-78):
`txn is not None and txn.manager == self and txn.storage ==
self.storage and txn.status in (ABORTED, COMMITTED, CONFLICT)`. -/
def reuse_cond (self : Manager) (ctxTxn : Option Txn) : Bool :=
  match ctxTxn with
  | none => false
  | some t =>
      t.managerId == self.mid && t.storageId == self.storageId &&
        (t.status == Status.ABORTED || t.status == Status.COMMITTED ||
          t.status == Status.CONFLICT)

/-- Outcomes of the collaborator calls awaited during
`TransactionManager.begin`: the fresh transaction's identity, the
`get_authenticated_user_id()` outcome (`none` = `RequestNotFound`), the
`_close_txn` environment for the spurious-connection close, and the
connection `tpc_begin` acquires. -/
structure BeginEnv where
  freshId : Nat
  userResult : Option (Option String)
  spuriousClose : CloseEnv
  newConn : Conn
deriving DecidableEq, Repr

/-- Result of `begin`: the transaction it returns, the value left in
`task_vars.txn` (the execution context), and a raised exception if the
call escaped early. -/
structure BeginResult where
  txn : Txn
  ctx : Option Txn
  exc : Option PyExc
deriving DecidableEq, Repr

/-- The spurious-connection step of the reuse branch of
`TransactionManager.begin` (lines 82-87): when the reused transaction
still holds a connection that is not `_in_use`, `_close_txn` it,
swallowing any `Exception` (`logger.warn`); a non-`Exception`
(cancellation) escapes. -/
def spurious_close (env : CloseEnv) (t1 : Txn) : Txn × Option PyExc :=
  match t1.dbConn with
  | some conn =>
    if conn.inUse == none then
      let c := close_txn env t1
      match c.snd with
      | some ex => if ex.isException then (c.fst, none) else (c.fst, some ex)
      | none => (c.fst, none)
    else (t1, none)
  | none => (t1, none)

/-- Shared tail of `TransactionManager.begin` (lines 92-106): attach
the authenticated user (best-effort), `tpc_begin` (modelled from the
spec: "allocates/reuses connection, marks ACTIVE" — it acquires a
connection when none is held), bind the transaction into the execution
context, then `storage.start_transaction` unless lazy/read-only or a
database transaction is already open. -/
def tm_begin_tail (env : BeginEnv) (readOnly lazy : Bool) (tc : Txn) : BeginResult :=
  let tc1 := match env.userResult with
    | some u => { tc with user := u }
    | none => tc
  let tc2 := match tc1.dbConn with
    | none => { tc1 with dbConn := some env.newConn }
    | some _ => tc1
  let tc3 := if lazy = false && readOnly = false && tc2.dbTxn = none
    then { tc2 with dbTxn := some () }
    else tc2
  -- task_vars.txn.set(txn) ran before start_transaction, but it binds the
  -- object itself, so the context sees the final state of the mutations
  { txn := tc3, ctx := some tc3, exc := none }

/-- `TransactionManager.begin` (lines 67-106).  The currently bound
transaction of the execution context is passed in as `ctx`. -/
def tm_begin (self : Manager) (env : BeginEnv) (ctx : Option Txn)
    (readOnly lazy : Bool) : BeginResult :=
  match ctx with
  | some t =>
    if t.managerId == self.mid && t.storageId == self.storageId &&
        (t.status == Status.ABORTED || t.status == Status.COMMITTED ||
          t.status == Status.CONFLICT) then
      -- reuse branch: txn.initialize(read_only), then close a spurious
      -- connection (one held while not `_in_use`), swallowing Exceptions
      let t1 := txn_reinit readOnly t
      let spur := spurious_close env.spuriousClose t1
      match spur.snd with
      | some ex =>
          -- a non-Exception (cancellation) escapes begin; the context still
          -- holds the same (mutated in place) transaction object
          { txn := spur.fst, ctx := some spur.fst, exc := some ex }
      | none => tm_begin_tail env readOnly lazy spur.fst
    else
      tm_begin_tail env readOnly lazy (txn_new self env.freshId readOnly)
  | none => tm_begin_tail env readOnly lazy (txn_new self env.freshId readOnly)

/-! ### Traversal (`guillotina/traversal.py`) -/

/-- A node of the persistent object tree as `traverse` classifies it
through `providedBy` checks. `nid` is the node's identity, used to key
child lookups. -/
structure Node where
  nid : Nat
  traversable : Bool
  isApp : Bool
  isDatabase : Bool
  isContainer : Bool
deriving DecidableEq, Repr

/-- Outcomes of the awaited collaborator calls inside `traverse`: the
child lookup (`async_get` / `parent[name]`; `none` covers both a `None`
result and a caught TypeError/KeyError/AttributeError) and, for
database nodes, the root object the freshly begun transaction loads. -/
structure TravEnv where
  child : Nat → String → Option Node
  dbRoot : Nat → Node

/-- Result of `traverse`, together with the trace of child lookups it
performed (in order): a normal return of `(node, remaining-path)`, the
`HTTPUnauthorized` raised for reserved segment names, or the uncaught
`IndexError` from `path[0][0]` on an empty segment. -/
inductive TravResult where
  | ok (node : Node) (rest : List String) (lookups : List (Nat × String))
  | unauthorized (lookups : List (Nat × String))
  | indexError (lookups : List (Nat × String))
deriving DecidableEq, Repr

/-- Prepend a performed child lookup to a result's trace. -/
def TravResult.addLookup (l : Nat × String) : TravResult → TravResult
  | .ok n r ls => .ok n r (l :: ls)
  | .unauthorized ls => .unauthorized (l :: ls)
  | .indexError ls => .indexError (l :: ls)

/-- `traverse` (traversal.py lines 60-117).  The mutations of
`request` and the `task_vars` bindings (application, db, tm, container,
registry, layers) do not affect the returned `(node, path)` pair and
are not tracked; a database node is replaced by its transaction's root
object via `env.dbRoot`. -/
def traverse (env : TravEnv) (parent : Node) (path : List String) : TravResult :=
  match path with
  | [] => .ok parent [] []
  | seg :: rest =>
    if parent.traversable = false then .ok parent (seg :: rest) []
    else
      match seg.data with
      | [] => .indexError []  -- path[0][0] raises IndexError, caught by no clause here
      | c :: _ =>
        if c == '_' || seg == "." || seg == ".." then .unauthorized []
        else if c == '@' then .ok parent (seg :: rest) []
        else
          match env.child parent.nid seg with
          | none => .ok parent (seg :: rest) [(parent.nid, seg)]
          | some ctx0 =>
            let ctx1 := if ctx0.isDatabase then env.dbRoot ctx0.nid else ctx0
            (traverse env ctx1 rest).addLookup (parent.nid, seg)

/-! ### The AccessContent gate of `TraversalRouter.real_resolve`
(traversal.py lines 448-466) -/

/-- The slice of a resolved view the gate reads: its
`__allow_access__` flag. -/
structure ResolvedView where
  allowAccess : Bool
deriving DecidableEq, Repr

/-- Payload of the `HTTPUnauthorized` the gate raises. -/
structure AccessDenied where
  reason : String
  content : String
  auth : String
deriving DecidableEq, Repr

/-- The permission gate: given `policy.check_permission(permission.id,
resource)`, whether the request method mapped to `IOPTIONS`, the view
resolved so far, `str(resource)` and `authenticated.id`, it returns the
`HTTPUnauthorized` raised (`none` = resolution proceeds). -/
def access_content_check (permitted : Bool) (isOptionsMethod : Bool)
    (view : Option ResolvedView) (resourceStr authId : String) : Option AccessDenied :=
  if permitted = false then
    if isOptionsMethod = false then
      match view with
      | none => some ⟨"You are not authorized to access content", resourceStr, authId⟩
      | some v =>
        if v.allowAccess = false then
          some ⟨"You are not authorized to access content", resourceStr, authId⟩
        else none
    else none
  else none

/-! ### Object cache (`guillotina/db/cache/base.py`) -/

/-- The `container` argument of `BaseCache.get_key`: a raw string or an
object, of which only `__uuid__` is read. -/
inductive ContainerArg where
  | str (s : String)
  | obj (uuid : String)
deriving DecidableEq, Repr

/-- Python truthiness of an `Optional[str]` attribute (`if ob.__of__:`):
false for `None` and for the empty string. -/
def pyTruthyStr : Option String → Bool
  | none => false
  | some s => !s.isEmpty

/-- `BaseCache.get_key` (base.py lines 50-69); `dbId` is
`getattr(self._transaction.manager, "db_id", "root")`. -/
def get_key (dbId : String) (oid : Option String) (container : Option ContainerArg)
    (id : Option String) (variant : Option String) : String :=
  let key := dbId ++ "-"
  let key := match oid with
    | some o => key ++ o
    | none =>
      match container with
      | some (ContainerArg.str s) => key ++ s
      | some (ContainerArg.obj u) => key ++ u
      | none => key
  let key := match id with
    | some i => key ++ "/" ++ i
    | none => key
  match variant with
  | some v => key ++ "-" ++ v
  | none => key

/-- The slice of a persistent object `BaseCache.get_cache_keys` reads:
`__uuid__`, `__of__`, `__name__`, `__parent__` (of which only
`__uuid__` would be read; `none` = no parent) and `id`. -/
structure CacheOb where
  uuid : String
  ofOwner : Option String
  name : String
  parent : Option String
  id : String
deriving DecidableEq, Repr

/-- `BaseCache.get_cache_keys` (base.py lines 102-127). -/
def get_cache_keys (dbId : String) (ob : CacheOb) (type_ : String) : List String :=
  if pyTruthyStr ob.ofOwner then
    [ get_key dbId (some ob.uuid) none none none,
      get_key dbId ob.ofOwner none (some ob.name) (some "annotation"),
      get_key dbId ob.ofOwner none none (some "annotation-keys") ]
  else if type_ == "modified" then
    [ get_key dbId (some ob.uuid) none none none,
      get_key dbId none (ob.parent.map ContainerArg.obj) (some ob.id) none ]
  else if type_ == "added" then
    [ get_key dbId none (ob.parent.map ContainerArg.obj) none (some "len"),
      get_key dbId none (ob.parent.map ContainerArg.obj) none (some "keys") ]
  else if type_ == "deleted" then
    [ get_key dbId (some ob.uuid) none none none,
      get_key dbId none (ob.parent.map ContainerArg.obj) (some ob.id) none,
      get_key dbId none (ob.parent.map ContainerArg.obj) none (some "len"),
      get_key dbId none (ob.parent.map ContainerArg.obj) none (some "keys") ]
  else []

/-- The hit/miss/store counters a `BaseCache` instance owns
(`__hits`, `__misses`, `__stored`, all zeroed by `__init__`). -/
structure CacheCounters where
  hits : Nat
  misses : Nat
  stored : Nat
deriving DecidableEq, Repr

/-- The aggregate counters owned by the transaction manager
(`_cache_hits`, `_cache_misses`, `_cache_stored`). -/
structure MgrCounters where
  cacheHits : Nat
  cacheMisses : Nat
  cacheStored : Nat
deriving DecidableEq, Repr

/-- The mutable state touched by the `BaseCache` counter setters: the
instance counters plus the owning manager's aggregates. -/
structure CacheState where
  cache : CacheCounters
  mgr : MgrCounters
deriving DecidableEq, Repr

/-- `BaseCache.__init__`'s counter initialization. -/
def cache_init_counters : CacheCounters :=
  { hits := 0, misses := 0, stored := 0 }

/-- The `_hits` setter (base.py lines 27-30): ignores the assigned
value, bumps the instance counter and the manager aggregate. -/
def set_hits (_value : Nat) (s : CacheState) : CacheState :=
  { s with cache := { s.cache with hits := s.cache.hits + 1 },
           mgr := { s.mgr with cacheHits := s.mgr.cacheHits + 1 } }

/-- The `_misses` setter (base.py lines 36-39). -/
def set_misses (_value : Nat) (s : CacheState) : CacheState :=
  { s with cache := { s.cache with misses := s.cache.misses + 1 },
           mgr := { s.mgr with cacheMisses := s.mgr.cacheMisses + 1 } }

/-- The `_stored` setter (base.py lines 45-48). -/
def set_stored (_value : Nat) (s : CacheState) : CacheState :=
  { s with cache := { s.cache with stored := s.cache.stored + 1 },
           mgr := { s.mgr with cacheStored := s.mgr.cacheStored + 1 } }

/-! ### Deferred-task wait (`BaseMatchInfo.wait`, traversal.py lines
160-171) -/

/-- Python's `int(s)` on a string: optional surrounding whitespace,
optional sign, then decimal digits which may be grouped by single
underscores; anything else raises `ValueError` (`none`). -/
def pyDigitsAux : List Char → Nat → Bool → Option Nat
  | [], acc, lastDigit => if lastDigit then some acc else none
  | c :: cs, acc, lastDigit =>
    if c.isDigit then pyDigitsAux cs (acc * 10 + (c.toNat - '0'.toNat)) true
    else if c == '_' then
      if lastDigit then pyDigitsAux cs acc false else none
    else none

/-- Strip leading and trailing whitespace from a character sequence. -/
def pyStrip (cs : List Char) : List Char :=
  ((cs.dropWhile Char.isWhitespace).reverse.dropWhile Char.isWhitespace).reverse

/-- `int(s)` (see `pyDigitsAux`). -/
def pyInt (s : String) : Option Int :=
  match pyStrip s.data with
  | '-' :: cs => (pyDigitsAux cs 0 false).map fun n => -(n : Int)
  | '+' :: cs => (pyDigitsAux cs 0 false).map fun n => (n : Int)
  | cs => (pyDigitsAux cs 0 false).map fun n => (n : Int)

/-- What one call to `BaseMatchInfo.wait` did: the `timeout` passed to
`asyncio.wait` when it was called (`none` = `asyncio.wait` was never
invoked), and the `XG-Wait` header written on the response. -/
structure WaitOutcome where
  timeoutPassed : Option (Option Int)
  xgWait : Option String
deriving DecidableEq, Repr

/-- `BaseMatchInfo.wait` (traversal.py lines 160-171).  The request's
headers are represented by their `X-Wait` entry; `completes t` is
whether the single deferred task finishes within timeout `t` (so ends
up in `done` rather than `pending`). -/
def match_info_wait (xwait : Option String) (completes : Option Int → Bool) : WaitOutcome :=
  match xwait with
  | none => { timeoutPassed := none, xgWait := none }
  | some v =>
    let t := pyInt v  -- except ValueError: time_to_wait = None
    { timeoutPassed := some t
      xgWait := some (if completes t then "done" else "pending") }

/-! ### Subscriber dispatch
(`GuillotinaAdapterLookup.asubscribers`, globalregistry.py lines 33-43) -/

/-- A registered subscription handler: its registration index (the
order `self.subscriptions(...)` yields them in), its `priority`
attribute when present (`getattr(sub, "priority", 100)`), and whether
it is a coroutine function. -/
structure Handler where
  reg : Nat
  priority : Option Int
  isAsync : Bool
deriving DecidableEq, Repr

/-- `getattr(sub, "priority", 100)`. -/
def priorityOf (h : Handler) : Int :=
  h.priority.getD 100

/-- The order `asubscribers` invokes the handlers in:
`sorted(subscriptions, key=lambda sub: getattr(sub, "priority", 100))`.
Python's `sorted` is a stable ascending sort; stable sorts for a fixed
total preorder agree extensionally, so it is embedded as insertion
sort. -/
def invocation_order (subs : List Handler) : List Handler :=
  List.insertionSort (fun a b => priorityOf a ≤ priorityOf b) subs

/-- The ascending-priority comparison `sorted` is keyed by is total. -/
instance : IsTotal Handler (fun a b => priorityOf a ≤ priorityOf b) :=
  ⟨fun a b => Int.le_total (priorityOf a) (priorityOf b)⟩

/-- The ascending-priority comparison `sorted` is keyed by is transitive. -/
instance : IsTrans Handler (fun a b => priorityOf a ≤ priorityOf b) :=
  ⟨fun _ _ _ h1 h2 => Int.le_trans h1 h2⟩

/-! ### Concrete inputs used by witnesses -/

/-- An object whose `__of__` attribute is the empty string: non-null
but falsy in Python. -/
def obEmptyOfW : CacheOb :=
  { uuid := "o", ofOwner := some "", name := "n", parent := some "p", id := "c" }

/-- A live pool connection. -/
def connW : Conn := { con := some (), inUse := none }

/-- A transaction holding a live connection. -/
def txnW : Txn :=
  { tid := 1, managerId := 0, storageId := 0, status := Status.ACTIVE, readOnly := false,
    dbConn := some connW, dbTxn := none, user := none, queryCountEnd := none }

/-- A close environment in which the graceful close raises an
unexpected error and the terminate fallback is cancelled. -/
def closeEnvRaisingW : CloseEnv :=
  { queryCountAttrError := false, queryCount := 3,
    closeResult := some (PyExc.otherError 7), terminateResult := some PyExc.cancelledError }

/-- A close environment in which every collaborator call succeeds. -/
def closeEnvOkW : CloseEnv :=
  { queryCountAttrError := false, queryCount := 3, closeResult := none, terminateResult := none }

/-- A finish environment in which `txn.commit()` raises a
`ConflictError` and the close path succeeds. -/
def conflictEnvW : FinishEnv := { result := some PyExc.conflictError, close := closeEnvOkW }

/-- A finish environment in which the cleanup is cancelled. -/
def cancelEnvW : FinishEnv := { result := some PyExc.cancelledError, close := closeEnvOkW }

/-- A traversable application root. -/
def rootNodeW : Node :=
  { nid := 0, traversable := true, isApp := true, isDatabase := false, isContainer := false }

/-- A traversal environment with no children. -/
def travEnvW : TravEnv :=
  { child := fun _ _ => none, dbRoot := fun _ => rootNodeW }

/-! ### Helper lemmas -/

/-- An exception in flight when a `finally` block completes normally,
or raised by the `finally` block itself, propagates. -/
theorem pyFinally_some_ne_none (e : PyExc) (x : Option PyExc) :
    pyFinally (some e) x ≠ none := by
  cases x <;> simp [pyFinally]

/-- Every path through `_close_txn` — normal return of the no-op and
graceful branches, the consumed-exception terminate branch, and every
raising branch — leaves `txn._db_conn` at `None`. -/
theorem close_txn_fst_dbConn (env : CloseEnv) (txn : Txn) :
    ((close_txn env txn).fst).dbConn = none := by
  unfold close_txn
  cases h : txn.dbConn with
  | none => exact h
  | some conn =>
    dsimp only
    split <;> first
      | rfl
      | (split <;> first
          | rfl
          | (split <;> first | rfl | (split <;> rfl) | (split <;> first | rfl | (split <;> rfl))))

/-- `_close_txn` never changes the transaction's status. -/
theorem close_txn_fst_status (env : CloseEnv) (txn : Txn) :
    ((close_txn env txn).fst).status = txn.status := by
  unfold close_txn
  cases h : txn.dbConn with
  | none => rfl
  | some conn =>
    dsimp only
    repeat' split
    all_goals rfl

/-- `_close_txn` never changes the transaction's identity. -/
theorem close_txn_fst_tid (env : CloseEnv) (txn : Txn) :
    ((close_txn env txn).fst).tid = txn.tid := by
  unfold close_txn
  cases h : txn.dbConn with
  | none => rfl
  | some conn =>
    dsimp only
    repeat' split
    all_goals rfl

/-- When the graceful `storage.close` succeeds, `_close_txn` returns
normally. -/
theorem close_txn_snd_of_close_ok (env : CloseEnv) (txn : Txn)
    (h : env.closeResult = none) : (close_txn env txn).snd = none := by
  unfold close_txn
  cases hc : txn.dbConn with
  | none => rfl
  | some conn =>
    dsimp only
    rw [h]

/-- The spurious-connection close of `begin`'s reuse branch keeps the
transaction's identity. -/
theorem spurious_close_fst_tid (env : CloseEnv) (t1 : Txn) :
    ((spurious_close env t1).fst).tid = t1.tid := by
  unfold spurious_close
  dsimp only
  repeat' split
  all_goals first
    | rfl
    | exact close_txn_fst_tid _ _

/-- The spurious-connection close of `begin`'s reuse branch keeps the
transaction's status. -/
theorem spurious_close_fst_status (env : CloseEnv) (t1 : Txn) :
    ((spurious_close env t1).fst).status = t1.status := by
  unfold spurious_close
  dsimp only
  repeat' split
  all_goals first
    | rfl
    | exact close_txn_fst_status _ _

/-- `begin`'s shared tail keeps the transaction's identity. -/
theorem tm_begin_tail_txn_tid (env : BeginEnv) (ro lz : Bool) (tc : Txn) :
    ((tm_begin_tail env ro lz tc).txn).tid = tc.tid := by
  unfold tm_begin_tail
  dsimp only
  repeat' split
  all_goals rfl

/-- `begin`'s shared tail keeps the transaction's status. -/
theorem tm_begin_tail_txn_status (env : BeginEnv) (ro lz : Bool) (tc : Txn) :
    ((tm_begin_tail env ro lz tc).txn).status = tc.status := by
  unfold tm_begin_tail
  dsimp only
  repeat' split
  all_goals rfl

/-- `begin`'s shared tail binds exactly the transaction it returns into
the execution context and returns normally. -/
theorem tm_begin_tail_ctx (env : BeginEnv) (ro lz : Bool) (tc : Txn) :
    (tm_begin_tail env ro lz tc).ctx = some (tm_begin_tail env ro lz tc).txn ∧
    (tm_begin_tail env ro lz tc).exc = none := by
  unfold tm_begin_tail
  dsimp only
  exact ⟨rfl, rfl⟩

/-- Python truthiness of a non-empty optional string. -/
theorem pyTruthyStr_some_of_ne (u : String) (h : u ≠ "") : pyTruthyStr (some u) = true := by
  have hs : u.isEmpty = false := by
    cases hs : u.isEmpty
    · rfl
    · exact absurd ((String.isEmpty_iff u).mp hs) h
  show (!u.isEmpty) = true
  rw [hs]
  rfl

/-- Folding `_hits` assignments advances both counters by the number of
assignments, whatever values are assigned. -/
theorem foldl_set_hits (vs : List Nat) (s : CacheState) :
    (vs.foldl (fun st x => set_hits x st) s).cache.hits = s.cache.hits + vs.length ∧
    (vs.foldl (fun st x => set_hits x st) s).mgr.cacheHits = s.mgr.cacheHits + vs.length := by
  induction vs generalizing s with
  | nil => simp
  | cons x xs ih =>
    have h := ih (set_hits x s)
    simp only [List.foldl_cons, List.length_cons]
    rw [h.1, h.2]
    simp [set_hits]
    omega

/-- Folding `_misses` assignments advances both counters by the number
of assignments. -/
theorem foldl_set_misses (vs : List Nat) (s : CacheState) :
    (vs.foldl (fun st x => set_misses x st) s).cache.misses = s.cache.misses + vs.length ∧
    (vs.foldl (fun st x => set_misses x st) s).mgr.cacheMisses = s.mgr.cacheMisses + vs.length := by
  induction vs generalizing s with
  | nil => simp
  | cons x xs ih =>
    have h := ih (set_misses x s)
    simp only [List.foldl_cons, List.length_cons]
    rw [h.1, h.2]
    simp [set_misses]
    omega

/-- Folding `_stored` assignments advances both counters by the number
of assignments. -/
theorem foldl_set_stored (vs : List Nat) (s : CacheState) :
    (vs.foldl (fun st x => set_stored x st) s).cache.stored = s.cache.stored + vs.length ∧
    (vs.foldl (fun st x => set_stored x st) s).mgr.cacheStored = s.mgr.cacheStored + vs.length := by
  induction vs generalizing s with
  | nil => simp
  | cons x xs ih =>
    have h := ih (set_stored x s)
    simp only [List.foldl_cons, List.length_cons]
    rw [h.1, h.2]
    simp [set_stored]
    omega

/-! ### Claim theorems -/

/-- C1: for every transaction with a non-null database connection,
`TransactionManager._close_txn` sets `txn._db_conn` to `None` as its
final step on every exit path — whether the graceful close, the
terminate fallback, or any other inner step raised or succeeded — so
after `_close_txn` returns or raises, `txn._db_conn` is `None`. -/
theorem claim_C1_close_txn_nulls_connection (env : CloseEnv) (txn : Txn) (c : Conn)
    (_h : txn.dbConn = some c) : ((close_txn env txn).fst).dbConn = none :=
  close_txn_fst_dbConn env txn

/-- Witness for C1 at a transaction holding a live connection, with the
graceful close raising an unexpected error and the terminate fallback
cancelled. -/
theorem claim_C1_witness :
    txnW.dbConn = some connW ∧ ((close_txn closeEnvRaisingW txnW).fst).dbConn = none :=
  ⟨rfl, claim_C1_close_txn_nulls_connection closeEnvRaisingW txnW connW rfl⟩

/-- C2: `TransactionManager._commit` closes the transaction's
connection via `_close_txn` regardless of commit outcome, and when
`txn.commit()` raises `ConflictError` or `TIDConflictError` it sets the
status to CONFLICT, still closes, and propagates the conflict to the
caller (re-raising the conflict itself whenever the close path does not
raise) rather than swallowing it. -/
theorem claim_C2_commit_closes_and_propagates_conflict (env : FinishEnv) (txn : Txn) :
    ((tm_commit env txn).fst).dbConn = none ∧
    (env.result = some PyExc.conflictError →
      ((tm_commit env txn).fst).status = Status.CONFLICT ∧
      (tm_commit env txn).snd ≠ none ∧
      (env.close.closeResult = none → (tm_commit env txn).snd = some PyExc.conflictError)) ∧
    (env.result = some PyExc.tidConflictError →
      ((tm_commit env txn).fst).status = Status.CONFLICT ∧
      (tm_commit env txn).snd ≠ none ∧
      (env.close.closeResult = none → (tm_commit env txn).snd = some PyExc.tidConflictError)) := by
  refine ⟨?_, ?_, ?_⟩
  · unfold tm_commit tm_commit_inner
    dsimp only
    split <;> exact close_txn_fst_dbConn _ _
  · intro h
    unfold tm_commit tm_commit_inner
    rw [h]
    dsimp only [txn_commit]
    refine ⟨(close_txn_fst_status _ _).trans rfl, pyFinally_some_ne_none _ _, fun hc => ?_⟩
    rw [close_txn_snd_of_close_ok _ _ hc]
    rfl
  · intro h
    unfold tm_commit tm_commit_inner
    rw [h]
    dsimp only [txn_commit]
    refine ⟨(close_txn_fst_status _ _).trans rfl, pyFinally_some_ne_none _ _, fun hc => ?_⟩
    rw [close_txn_snd_of_close_ok _ _ hc]
    rfl

/-- Witness for C2 at a transaction holding a live connection whose
commit raises `ConflictError` while the close path succeeds. -/
theorem claim_C2_witness :
    conflictEnvW.result = some PyExc.conflictError ∧
    conflictEnvW.close.closeResult = none ∧
    ((tm_commit conflictEnvW txnW).fst).dbConn = none ∧
    ((tm_commit conflictEnvW txnW).fst).status = Status.CONFLICT ∧
    (tm_commit conflictEnvW txnW).snd = some PyExc.conflictError := by
  have h := claim_C2_commit_closes_and_propagates_conflict conflictEnvW txnW
  exact ⟨rfl, rfl, h.1, (h.2.1 rfl).1, (h.2.1 rfl).2.2 rfl⟩

/-- C7: `TransactionManager.abort` never propagates a cancellation
signal — a `CancelledError` raised while the abort-and-close cleanup
runs is swallowed, the connection-release step still runs, and abort
returns normally — whereas `TransactionManager.commit` does not swallow
cancellation. -/
theorem claim_C7_abort_swallows_cancellation (env : FinishEnv) (txn : Txn) :
    (tm_abort env txn).snd ≠ some PyExc.cancelledError ∧
    ((tm_abort env txn).fst).dbConn = none ∧
    (env.result = some PyExc.cancelledError → env.close.closeResult = none →
      (tm_abort env txn).snd = none) ∧
    ((tm_commit_inner env txn).snd = some PyExc.cancelledError →
      (tm_commit env txn).snd = some PyExc.cancelledError) := by
  refine ⟨?_, ?_, ?_, fun h => h⟩
  · unfold tm_abort
    dsimp only
    split
    · simp
    · simp_all
  · unfold tm_abort
    dsimp only
    split <;>
      exact close_txn_fst_dbConn _ _
  · intro h hc
    unfold tm_abort tm_abort_inner
    rw [h]
    dsimp only [txn_abort]
    rw [close_txn_snd_of_close_ok _ _ hc]
    rfl

/-- C3: `TransactionManager.begin` reuses the context's transaction
(re-initialized in place to ACTIVE, preserving its identity) exactly
when it is non-null, belongs to this manager and storage, and is
ABORTED, COMMITTED or CONFLICT; otherwise a new `Transaction` instance
is constructed; in both cases the chosen transaction is bound back into
the execution context. -/
theorem claim_C3_begin_reuse_iff_terminal (self : Manager) (env : BeginEnv)
    (ctx : Option Txn) (ro lz : Bool) :
    ((tm_begin self env ctx ro lz).exc = none →
      (tm_begin self env ctx ro lz).ctx = some (tm_begin self env ctx ro lz).txn) ∧
    (∀ t, ctx = some t → reuse_cond self ctx = true →
      ((tm_begin self env ctx ro lz).txn).tid = t.tid ∧
      ((tm_begin self env ctx ro lz).txn).status = Status.ACTIVE) ∧
    (reuse_cond self ctx = false →
      ((tm_begin self env ctx ro lz).txn).tid = env.freshId ∧
      ((tm_begin self env ctx ro lz).txn).status = Status.ACTIVE) := by
  cases ctx with
  | none =>
    refine ⟨fun _ => (tm_begin_tail_ctx env ro lz _).1, ?_, ?_⟩
    · intro t ht
      exact absurd ht (by simp)
    · intro _
      exact ⟨tm_begin_tail_txn_tid env ro lz _, tm_begin_tail_txn_status env ro lz _⟩
  | some t =>
    cases hcond : (t.managerId == self.mid && t.storageId == self.storageId &&
        (t.status == Status.ABORTED || t.status == Status.COMMITTED ||
          t.status == Status.CONFLICT)) with
    | false =>
      have hrc : reuse_cond self (some t) = false := hcond
      unfold tm_begin
      dsimp only
      rw [hcond]
      simp only [Bool.false_eq_true, if_false]
      refine ⟨fun _ => (tm_begin_tail_ctx env ro lz _).1, ?_, ?_⟩
      · intro t' ht hr
        rw [hrc] at hr
        exact absurd hr (by simp)
      · intro _
        exact ⟨tm_begin_tail_txn_tid env ro lz _, tm_begin_tail_txn_status env ro lz _⟩
    | true =>
      have hrc : reuse_cond self (some t) = true := hcond
      unfold tm_begin
      dsimp only
      rw [hcond]
      simp only [if_true]
      split
      · -- the spurious close was cancelled: begin raises, the context
        -- still holds the (re-initialized) transaction object
        refine ⟨?_, ?_, ?_⟩
        · intro hexc
          exact rfl
        · intro t' ht hr
          injection ht with ht'
          subst ht'
          exact ⟨spurious_close_fst_tid _ _, spurious_close_fst_status _ _⟩
        · intro hr
          rw [hrc] at hr
          exact absurd hr (by simp)
      · refine ⟨fun _ => (tm_begin_tail_ctx env ro lz _).1, ?_, ?_⟩
        · intro t' ht hr
          injection ht with ht'
          subst ht'
          exact ⟨(tm_begin_tail_txn_tid env ro lz _).trans (spurious_close_fst_tid _ _),
            (tm_begin_tail_txn_status env ro lz _).trans (spurious_close_fst_status _ _)⟩
        · intro hr
          rw [hrc] at hr
          exact absurd hr (by simp)

/-- Witness for C3: a COMMITTED transaction of this manager and storage
is reused and re-activated, and an ACTIVE one is not. -/
theorem claim_C3_witness :
    reuse_cond ⟨0, 0⟩ (some { txnW with status := Status.COMMITTED }) = true ∧
    (tm_begin ⟨0, 0⟩ ⟨9, some (some "u"), closeEnvOkW, connW⟩
        (some { txnW with status := Status.COMMITTED }) false false).txn.tid = txnW.tid ∧
    (tm_begin ⟨0, 0⟩ ⟨9, some (some "u"), closeEnvOkW, connW⟩
        (some { txnW with status := Status.COMMITTED }) false false).txn.status =
      Status.ACTIVE ∧
    reuse_cond ⟨0, 0⟩ (some txnW) = false ∧
    (tm_begin ⟨0, 0⟩ ⟨9, some (some "u"), closeEnvOkW, connW⟩
        (some txnW) false false).txn.tid = 9 := by
  have h1 := claim_C3_begin_reuse_iff_terminal ⟨0, 0⟩ ⟨9, some (some "u"), closeEnvOkW, connW⟩
    (some { txnW with status := Status.COMMITTED }) false false
  have h2 := claim_C3_begin_reuse_iff_terminal ⟨0, 0⟩ ⟨9, some (some "u"), closeEnvOkW, connW⟩
    (some txnW) false false
  refine ⟨by decide, ?_, ?_, by decide, (h2.2.2 (by decide)).1⟩
  · exact (h1.2.1 _ rfl (by decide)).1
  · exact (h1.2.1 _ rfl (by decide)).2

/-- Witness for C7 at a cleanup whose `txn.abort()` is cancelled while
the close path succeeds. -/
theorem claim_C7_witness :
    cancelEnvW.result = some PyExc.cancelledError ∧
    cancelEnvW.close.closeResult = none ∧
    (tm_abort cancelEnvW txnW).snd = none ∧
    ((tm_abort cancelEnvW txnW).fst).dbConn = none := by
  have h := claim_C7_abort_swallows_cancellation cancelEnvW txnW
  exact ⟨rfl, rfl, h.2.2.1 rfl rfl, h.2.1⟩

/-- C4: in `real_resolve`, when the security policy denies
`guillotina.AccessContent` on the resource, an unauthorized response —
whose payload carries the resource and the principal's identity — is
raised if and only if the method is not OPTIONS and the resolved view
does not declare unauthenticated access allowed (view is `None` or
`__allow_access__` is falsy); for OPTIONS or an allowing view,
resolution proceeds despite the denial. -/
theorem claim_C4_access_content_gate (p opts : Bool) (view : Option ResolvedView)
    (rs auth : String) (hp : p = false) :
    ((access_content_check p opts view rs auth).isSome ↔
      (opts = false ∧ (view = none ∨ ∃ v, view = some v ∧ v.allowAccess = false))) ∧
    (access_content_check p opts view rs auth = none ∨
      access_content_check p opts view rs auth =
        some ⟨"You are not authorized to access content", rs, auth⟩) := by
  subst hp
  constructor
  · cases opts with
    | true => simp [access_content_check]
    | false =>
      cases view with
      | none => simp [access_content_check]
      | some v => cases hv : v.allowAccess <;> simp [access_content_check, hv]
  · cases opts with
    | true => exact Or.inl rfl
    | false =>
      cases view with
      | none => exact Or.inr rfl
      | some v =>
        cases hv : v.allowAccess with
        | false => exact Or.inr (by simp [access_content_check, hv])
        | true => exact Or.inl (by simp [access_content_check, hv])

/-- Witness for C4: with access denied, a non-OPTIONS method and no
resolved view, the unauthorized response is raised. -/
theorem claim_C4_witness :
    (access_content_check false false none "r" "a").isSome = true :=
  (claim_C4_access_content_gate false false none "r" "a" rfl).1.mpr ⟨rfl, Or.inl rfl⟩

/-- C5: for a traversable parent and non-empty path, `traverse` raises
unauthorized before performing any child lookup when the first segment
begins with an underscore or equals a dot or double dot; when it begins
with an at-sign it returns `(parent, path)` unchanged without further
traversal; and when the parent is not traversable or the path is empty
it returns `(parent, path)` unchanged. -/
theorem claim_C5_traverse_stop_conditions (env : TravEnv) (parent : Node) (seg : String)
    (rest path : List String) :
    (parent.traversable = true →
      ((∃ cs, seg.data = '_' :: cs) ∨ seg = "." ∨ seg = "..") →
      traverse env parent (seg :: rest) = TravResult.unauthorized []) ∧
    (parent.traversable = true → (∃ cs, seg.data = '@' :: cs) →
      traverse env parent (seg :: rest) = TravResult.ok parent (seg :: rest) []) ∧
    (parent.traversable = false →
      traverse env parent path = TravResult.ok parent path []) ∧
    (traverse env parent [] = TravResult.ok parent [] []) := by
  refine ⟨?_, ?_, ?_, rfl⟩
  · intro h1 h2
    unfold traverse
    dsimp only
    rw [h1, if_neg (by simp)]
    rcases h2 with ⟨cs, hd⟩ | h2 | h2
    · rw [hd]
      simp
    · subst h2
      rfl
    · subst h2
      rfl
  · intro h1 h2
    obtain ⟨cs, hd⟩ := h2
    have h3 : seg ≠ "." := by
      intro h
      rw [h, show ".".data = ['.'] from rfl] at hd
      simp at hd
    have h4 : seg ≠ ".." := by
      intro h
      rw [h, show "..".data = ['.', '.'] from rfl] at hd
      simp at hd
    unfold traverse
    dsimp only
    rw [h1, if_neg (by simp), hd]
    simp [h3, h4]
  · intro h1
    cases path with
    | nil => rfl
    | cons s r =>
      unfold traverse
      dsimp only
      rw [h1, if_pos rfl]

/-- Witness for C5: from a traversable root, a leading-underscore
segment and a double-dot segment are rejected unauthorized with no
lookup performed, and an at-sign segment stops traversal unchanged. -/
theorem claim_C5_witness :
    rootNodeW.traversable = true ∧
    traverse travEnvW rootNodeW ["_private"] = TravResult.unauthorized [] ∧
    traverse travEnvW rootNodeW ["..", "x"] = TravResult.unauthorized [] ∧
    traverse travEnvW rootNodeW ["@addons"] =
      TravResult.ok rootNodeW ["@addons"] [] := by
  refine ⟨rfl, ?_, ?_, ?_⟩
  · exact (claim_C5_traverse_stop_conditions travEnvW rootNodeW "_private" [] []).1 rfl
      (Or.inl ⟨"private".data, rfl⟩)
  · exact (claim_C5_traverse_stop_conditions travEnvW rootNodeW ".." ["x"] []).1 rfl
      (Or.inr (Or.inr rfl))
  · exact (claim_C5_traverse_stop_conditions travEnvW rootNodeW "@addons" [] []).2.1 rfl
      ⟨"addons".data, rfl⟩

/-- C6 counterexample: the claim asserts that every object with a
non-null `__of__` owner yields the three annotation keys regardless of
mutation type, but for `__of__ = ""` (non-null yet falsy) the code
takes the parented branch: an "added" mutation yields the parent's
len/keys pair, not the annotation keys. -/
theorem claim_C6_counterexample :
    get_cache_keys "d" obEmptyOfW "added" ≠
      ["d-o", "d-/n-annotation", "d--annotation-keys"] := by
  decide

/-- C6 (amended: "non-null `__of__`" must be "non-empty `__of__`",
since Python's `if ob.__of__:` treats the empty string as unset): for a
non-annotation object (falsy `__of__`) with parent P, "modified" yields
exactly [key(O), key(P, id=O.id)] and "deleted" exactly
[key(O), key(P, id=O.id), key(P, len), key(P, keys)]; for a non-empty
`__of__` owner the three annotation keys are returned regardless of the
mutation type, every key being the string db_id-oid, then slash id and
dash variant when present. -/
theorem claim_C6_cache_keys (dbId p u : String) (ob : CacheOb) :
    (pyTruthyStr ob.ofOwner = false → ob.parent = some p →
      get_cache_keys dbId ob "modified" =
        [dbId ++ "-" ++ ob.uuid, dbId ++ "-" ++ p ++ "/" ++ ob.id] ∧
      get_cache_keys dbId ob "deleted" =
        [dbId ++ "-" ++ ob.uuid, dbId ++ "-" ++ p ++ "/" ++ ob.id,
          dbId ++ "-" ++ p ++ "-" ++ "len", dbId ++ "-" ++ p ++ "-" ++ "keys"]) ∧
    (∀ ty : String, ob.ofOwner = some u → u ≠ "" →
      get_cache_keys dbId ob ty =
        [dbId ++ "-" ++ ob.uuid,
          dbId ++ "-" ++ u ++ "/" ++ ob.name ++ "-" ++ "annotation",
          dbId ++ "-" ++ u ++ "-" ++ "annotation-keys"]) := by
  constructor
  · intro h1 h2
    constructor <;> simp [get_cache_keys, get_key, h1, h2, String.append_assoc]
  · intro ty h1 h2
    unfold get_cache_keys
    rw [h1, pyTruthyStr_some_of_ne u h2]
    simp [get_key, String.append_assoc]

/-- Witness for C6 at a parented object and at an annotation object. -/
theorem claim_C6_witness :
    get_cache_keys "d" { uuid := "o", ofOwner := none, name := "n", parent := some "p", id := "c" }
        "modified" = ["d-o", "d-p/c"] ∧
    get_cache_keys "d" { uuid := "o", ofOwner := some "w", name := "n", parent := some "p", id := "c" }
        "added" = ["d-o", "d-w/n-annotation", "d-w-annotation-keys"] := by
  have h1 := claim_C6_cache_keys "d" "p" "w"
    { uuid := "o", ofOwner := none, name := "n", parent := some "p", id := "c" }
  have h2 := claim_C6_cache_keys "d" "p" "w"
    { uuid := "o", ofOwner := some "w", name := "n", parent := some "p", id := "c" }
  exact ⟨(h1.1 rfl rfl).1, h2.2 "added" rfl (by decide)⟩

/-- C8: `asubscribers` invokes handlers in ascending order of their
`priority` attribute (default 100 when absent), ties preserving
registration order (the sort is stable); in particular priorities
[50, 100, 10] run as [10, 50, 100]. -/
theorem claim_C8_subscriber_priority_order (subs : List Handler) :
    List.Sorted (fun a b => priorityOf a ≤ priorityOf b) (invocation_order subs) ∧
    (∀ p : Int, (invocation_order subs).filter (fun h => priorityOf h == p) =
      subs.filter (fun h => priorityOf h == p)) ∧
    (invocation_order
        [⟨0, some 50, false⟩, ⟨1, some 100, true⟩, ⟨2, some 10, false⟩]).map priorityOf =
      [10, 50, 100] ∧
    priorityOf ⟨1, none, false⟩ = 100 := by
  refine ⟨List.sorted_insertionSort _ subs, ?_, by decide, by decide⟩
  intro p
  have hself : ∀ l : List Handler,
      (l.filter fun h => priorityOf h == p).filter (fun h => priorityOf h == p) =
        l.filter (fun h => priorityOf h == p) :=
    fun l => List.filter_eq_self.mpr (fun a ha => (List.mem_filter.mp ha).2)
  have hmem : ∀ a ∈ subs.filter (fun h => priorityOf h == p), priorityOf a = p := by
    intro a ha
    exact eq_of_beq (List.mem_filter.mp ha).2
  have hpair : (subs.filter fun h => priorityOf h == p).Pairwise
      (fun a b => priorityOf a ≤ priorityOf b) := by
    apply List.pairwise_of_forall_mem_list
    intro a ha b hb
    rw [hmem a ha, hmem b hb]
  have h1 : List.Sublist (subs.filter fun h => priorityOf h == p) (invocation_order subs) :=
    List.sublist_insertionSort hpair (List.filter_sublist subs)
  have h3 : List.Sublist (subs.filter fun h => priorityOf h == p)
      ((invocation_order subs).filter (fun h => priorityOf h == p)) := by
    have h4 := h1.filter (fun h => priorityOf h == p)
    rwa [hself] at h4
  have h2 : List.Perm ((invocation_order subs).filter (fun h => priorityOf h == p))
      (subs.filter (fun h => priorityOf h == p)) :=
    (List.perm_insertionSort _ subs).filter _
  exact (h3.eq_of_length h2.length_eq.symm).symm

/-- C9 counterexample: the claim asserts that with the `X-Wait` header
absent the handler waits indefinitely (i.e. `asyncio.wait` is invoked
with `timeout=None`), but the code only waits at all when the header is
present: no wait call is made. -/
theorem claim_C9_counterexample :
    (match_info_wait none (fun _ => true)).timeoutPassed ≠ some none := by
  decide

/-- C9 (amended: when `X-Wait` is absent no wait is performed at all —
and no `XG-Wait` header is written; the indefinite wait happens only
for a present but unparsable header): a present header parsing as an
integer bounds the wait by that many seconds; a present unparsable
header yields an unbounded wait; after a wait the response carries
`XG-Wait: done` if the task completed and `pending` otherwise. -/
theorem claim_C9_wait_header (v : String) (completes : Option Int → Bool) (n : Int) :
    (match_info_wait none completes = { timeoutPassed := none, xgWait := none }) ∧
    (pyInt v = some n →
      (match_info_wait (some v) completes).timeoutPassed = some (some n)) ∧
    (pyInt v = none →
      (match_info_wait (some v) completes).timeoutPassed = some none) ∧
    ((match_info_wait (some v) completes).xgWait =
      some (if completes (pyInt v) then "done" else "pending")) := by
  refine ⟨rfl, ?_, ?_, rfl⟩
  · intro h
    simp [match_info_wait, h]
  · intro h
    simp [match_info_wait, h]

/-- Witness for C9 at a parsable and an unparsable header value. -/
theorem claim_C9_witness :
    pyInt "5" = some 5 ∧ pyInt "abc" = none ∧
    (match_info_wait (some "5") (fun _ => true)).timeoutPassed = some (some 5) ∧
    (match_info_wait (some "abc") (fun _ => true)).timeoutPassed = some none := by
  have h1 := claim_C9_wait_header "5" (fun _ => true) 5
  have h2 := claim_C9_wait_header "abc" (fun _ => true) 0
  exact ⟨by decide, by decide, h1.2.1 (by decide), h2.2.2.1 (by decide)⟩

/-- C10: each assignment to the `_hits`, `_misses` or `_stored`
property of a `BaseCache` ignores the assigned value and increments the
cache's own counter and the owning manager's aggregate by exactly 1, so
after n assignments the transaction-local counter (zeroed at
construction) equals n and the manager aggregate has advanced by n. -/
theorem claim_C10_counter_setters (v w : Nat) (s : CacheState) (vs : List Nat)
    (m : MgrCounters) :
    (set_hits v s = set_hits w s ∧ set_misses v s = set_misses w s ∧
      set_stored v s = set_stored w s) ∧
    ((set_hits v s).cache.hits = s.cache.hits + 1 ∧
      (set_hits v s).mgr.cacheHits = s.mgr.cacheHits + 1 ∧
      (set_hits v s).cache.misses = s.cache.misses ∧
      (set_hits v s).cache.stored = s.cache.stored) ∧
    ((set_misses v s).cache.misses = s.cache.misses + 1 ∧
      (set_misses v s).mgr.cacheMisses = s.mgr.cacheMisses + 1) ∧
    ((set_stored v s).cache.stored = s.cache.stored + 1 ∧
      (set_stored v s).mgr.cacheStored = s.mgr.cacheStored + 1) ∧
    ((vs.foldl (fun st x => set_hits x st) ⟨cache_init_counters, m⟩).cache.hits = vs.length ∧
      (vs.foldl (fun st x => set_hits x st) ⟨cache_init_counters, m⟩).mgr.cacheHits =
        m.cacheHits + vs.length) ∧
    ((vs.foldl (fun st x => set_misses x st) ⟨cache_init_counters, m⟩).cache.misses = vs.length ∧
      (vs.foldl (fun st x => set_misses x st) ⟨cache_init_counters, m⟩).mgr.cacheMisses =
        m.cacheMisses + vs.length) ∧
    ((vs.foldl (fun st x => set_stored x st) ⟨cache_init_counters, m⟩).cache.stored = vs.length ∧
      (vs.foldl (fun st x => set_stored x st) ⟨cache_init_counters, m⟩).mgr.cacheStored =
        m.cacheStored + vs.length) := by
  refine ⟨⟨rfl, rfl, rfl⟩, ⟨rfl, rfl, rfl, rfl⟩, ⟨rfl, rfl⟩, ⟨rfl, rfl⟩, ?_, ?_, ?_⟩
  · have h := foldl_set_hits vs ⟨cache_init_counters, m⟩
    exact ⟨by simpa [cache_init_counters] using h.1, by simpa [cache_init_counters] using h.2⟩
  · have h := foldl_set_misses vs ⟨cache_init_counters, m⟩
    exact ⟨by simpa [cache_init_counters] using h.1, by simpa [cache_init_counters] using h.2⟩
  · have h := foldl_set_stored vs ⟨cache_init_counters, m⟩
    exact ⟨by simpa [cache_init_counters] using h.1, by simpa [cache_init_counters] using h.2⟩

end Guillotina
